import Mathlib

/-!
Verification development for the mcp-arr MCP server (TypeScript, `src/index.ts`,
`src/tautulli-client.ts`).  The definitions below are a shallow embedding of the
tool handlers that the claims concern: the `tautulli_get_history` dual-probe
flow, the `arr_search_all` cross-service search, the `arr_status` aggregation,
the `sonarr_get_series` / `radarr_get_movies` sorting, and the
`CallToolRequestSchema` dispatcher boundary.  Backend HTTP calls are modelled
by passing their outcomes (`Except` for promises that may reject) as explicit
inputs; JavaScript numbers used as counts or epoch seconds are modelled as
`Int`/`Nat`.  The `formatBytes` helper (index.ts lines 2815-2821) is not
modelled here: its output is decided by IEEE-754 double arithmetic
(`Math.log`, whose precision ECMAScript leaves implementation-approximated,
and `toFixed`), and near the `1024^5` boundary the printed unit suffix turns
on sub-ulp rounding of `Math.log`, so no exact-arithmetic shallow embedding
of it is faithful.
-/

namespace McpArr

/-! ## JavaScript argument values

An optional numeric tool argument as seen by the handler: absent, a number, or
some other (non-numeric) JSON value.  This models the
`typeof a.length === 'number'` test in the handler. -/

inductive JsVal where
  | missing : JsVal
  | num (n : Int) : JsVal
  | other : JsVal
deriving DecidableEq, Repr

/-! ## `tautulli_get_history` with a title filter (index.ts lines 2156-2214) -/

/-- `const returnLimit = typeof a.length === 'number' && a.length > 0 ?
Math.min(a.length, 100) : 100;` -/
def returnLimit (lengthArg : JsVal) : Nat :=
  match lengthArg with
  | .num n => if 0 < n then min n.toNat 100 else 100
  | _ => 100

/-- One row of the Tautulli `get_history` response, restricted to the fields
the handler reads (the cast at index.ts line 2192). -/
structure HistoryRow where
  friendly_name : Option String
  user : Option String
  date : Option Int
  full_title : Option String
  title : Option String
  grandparent_title : Option String
deriving DecidableEq, Repr

/-- The record emitted for each history row: `{ who, when, title }`. -/
structure EmittedRow where
  who : String
  whenAt : String
  title : String
deriving DecidableEq, Repr

/-- Left-pad the decimal representation of `n` with zeros to width `w`. -/
def padNum (w : Nat) (n : Nat) : String :=
  let s := toString n
  String.mk (List.replicate (w - s.length) '0') ++ s

def pad2 (n : Nat) : String := padNum 2 n

/-- Convert a count of days since 1970-01-01 to a civil (year, month, day)
in the proleptic Gregorian calendar (the calendar used by JavaScript
`Date.prototype.toISOString`). -/
def civilFromDays (z0 : Int) : Int × Nat × Nat :=
  let z := z0 + 719468
  let era := z / 146097
  let doe := z - era * 146097
  let yoe := (doe - doe / 1460 + doe / 36524 - doe / 146096) / 365
  let y := yoe + era * 400
  let doy := doe - (365 * yoe + yoe / 4 - yoe / 100)
  let mp := (5 * doy + 2) / 153
  let d := doy - (153 * mp + 2) / 5 + 1
  let m := if mp < 10 then mp + 3 else mp - 9
  (if m ≤ 2 then y + 1 else y, m.toNat, d.toNat)

/-- The year component of an ISO-8601 timestamp as printed by `toISOString`:
four zero-padded digits for years 0-9999, otherwise the expanded
sign-and-six-digit form. -/
def isoYear (y : Int) : String :=
  if 0 ≤ y ∧ y ≤ 9999 then padNum 4 y.toNat
  else (if y < 0 then "-" else "+") ++ padNum 6 y.natAbs

/-- `new Date(t * 1000).toISOString()` for an epoch-seconds timestamp `t`:
the UTC ISO-8601 string `YYYY-MM-DDTHH:MM:SS.000Z` (milliseconds are always
zero because the input has whole-second resolution). -/
def epochToIso (t : Int) : String :=
  let days := t / 86400
  let secs := (t % 86400).toNat
  let c := civilFromDays days
  isoYear c.1 ++ "-" ++ pad2 c.2.1 ++ "-" ++ pad2 c.2.2 ++ "T"
    ++ pad2 (secs / 3600) ++ ":" ++ pad2 (secs % 3600 / 60) ++ ":"
    ++ pad2 (secs % 60) ++ ".000Z"

/-- The per-row mapping at index.ts lines 2191-2198:
`who: r.friendly_name ?? r.user ?? '-'`,
`when: r.date != null ? new Date(r.date * 1000).toISOString() : '-'`,
`title: r.full_title ?? r.title ?? r.grandparent_title ?? '-'`. -/
def mapHistoryRow (r : HistoryRow) : EmittedRow :=
  { who := r.friendly_name.getD (r.user.getD "-")
  , whenAt := match r.date with
      | some d => epochToIso d
      | none => "-"
  , title := r.full_title.getD (r.title.getD (r.grandparent_title.getD "-")) }

/-- A value of the `results_list` record: either a JSON array (modelled by its
length, the only thing the handler reads) or some non-array value. -/
inductive JsListVal where
  | arr (len : Nat) : JsListVal
  | nonArray : JsListVal
deriving DecidableEq, Repr

/-- `Array.isArray(arr) ? arr.length : 0` -/
def catLen : JsListVal → Nat
  | .arr len => len
  | .nonArray => 0

/-- The Tautulli `search` response as read by the handler:
`{ results_count?: number; results_list?: Record<string, unknown[]> }`. -/
structure LibrarySearchData where
  results_count : Option Nat
  results_list : Option (List (String × JsListVal))
deriving DecidableEq, Repr

/-- `Object.values(list).reduce((sum, arr) => sum + (Array.isArray(arr) ? arr.length : 0), 0)` -/
def totalFromList (list : List (String × JsListVal)) : Nat :=
  (list.map (fun p => catLen p.2)).sum

/-- Library-presence processing at index.ts lines 2176-2183: `existsInLibrary`
starts `false`; when the library probe produced data it becomes
`count > 0 || totalFromList > 0` with `count = data.results_count ?? 0` and
`list = data.results_list ?? {}`. -/
def existsInLibraryOf (data : Option LibrarySearchData) : Bool :=
  match data with
  | none => false
  | some d =>
      let count := d.results_count.getD 0
      let list := d.results_list.getD []
      decide (0 < count) || decide (0 < totalFromList list)

/-- The Tautulli `get_history` payload shape as probed at index.ts line 2188:
an object carrying a `data` array, an object whose `data` field is not an
array, a bare array, or anything else. -/
inductive HistoryPayload where
  | withData (rows : List HistoryRow) : HistoryPayload
  | withBadData : HistoryPayload
  | bareArray (rows : List HistoryRow) : HistoryPayload
  | otherShape : HistoryPayload
deriving DecidableEq, Repr

/-- `const firstRaw = (first as {data?: unknown[]})?.data ?? (Array.isArray(first) ? first : []);
const rows = Array.isArray(firstRaw) ? firstRaw : [];` -/
def extractRows : HistoryPayload → List HistoryRow
  | .withData rows => rows
  | .bareArray rows => rows
  | _ => []

/-- The reshaped result built at index.ts lines 2200-2213 (the timing fields,
which only report wall-clock durations, are omitted). -/
structure WatchHistoryResult where
  searchedFor : String
  existsInLibrary : Bool
  watchedCount : Nat
  returned : Nat
  history : List EmittedRow
deriving DecidableEq, Repr

/-- Correlation of the two probe payloads into the handler's result. -/
def buildWatchHistoryResult (title : String) (lengthArg : JsVal)
    (libData : Option LibrarySearchData) (payload : HistoryPayload) :
    WatchHistoryResult :=
  let rows := extractRows payload
  let history := (rows.take (returnLimit lengthArg)).map mapHistoryRow
  { searchedFor := title
  , existsInLibrary := existsInLibraryOf libData
  , watchedCount := rows.length
  , returned := history.length
  , history := history }

/-- The titled branch of the `tautulli_get_history` handler, parameterized by
the outcomes of the two concurrent probes.  The library probe carries its own
`.catch(() => ({ data: null, ... }))`, so its rejection is converted to absent
data; the history probe has no such handler, so its rejection propagates out
of the `Promise.all`. -/
def tautulliGetHistoryTitled (title : String) (lengthArg : JsVal)
    (libraryProbe : Except String LibrarySearchData)
    (historyProbe : Except String HistoryPayload) :
    Except String WatchHistoryResult :=
  match historyProbe with
  | .error e => .error e
  | .ok payload =>
      let libData := match libraryProbe with
        | .ok d => some d
        | .error _ => none
      .ok (buildWatchHistoryResult title lengthArg libData payload)

/-! ## `arr_search_all` (index.ts lines 2416-2459) -/

/-- The four library-management backends probed by `arr_search_all`, in the
order of the handler's `if`-blocks. -/
inductive ArrService where
  | sonarr : ArrService
  | radarr : ArrService
  | lidarr : ArrService
  | readarr : ArrService
deriving DecidableEq, Repr

def searchAllOrder : List ArrService :=
  [.sonarr, .radarr, .lidarr, .readarr]

/-- One backend's contribution to the `arr_search_all` result:
`{ count, results: results.slice(0, 5) }` on success, `{ error }` on failure.
Individual search-result items are opaque here and modelled as strings. -/
inductive SearchEntry where
  | success (count : Nat) (results : List String) : SearchEntry
  | failure (msg : String) : SearchEntry
deriving DecidableEq, Repr

/-- The entry built from one backend's search outcome (the body of one
`if (clients.X) { try ... catch ... }` block). -/
def searchEntryOf (outcome : Except String (List String)) : SearchEntry :=
  match outcome with
  | .ok rs => .success rs.length (rs.take 5)
  | .error e => .failure e

/-- The `arr_search_all` handler: each configured backend is awaited in the
fixed declared order, its own `try/catch` turning a failure into that
backend's error entry, and its key is inserted into `results` at that point
(JavaScript objects preserve insertion order). -/
def arrSearchAll (configured : ArrService → Bool)
    (search : ArrService → Except String (List String)) :
    List (ArrService × SearchEntry) :=
  (searchAllOrder.filter configured).map fun s => (s, searchEntryOf (search s))

/-! ## `arr_status` (index.ts lines 1037-1113) -/

/-- The five *arr backend families of the static `services` list, in
declaration order. -/
inductive ArrFamily where
  | sonarr : ArrFamily
  | radarr : ArrFamily
  | lidarr : ArrFamily
  | readarr : ArrFamily
  | prowlarr : ArrFamily
deriving DecidableEq, Repr

def familiesOrder : List ArrFamily :=
  [.sonarr, .radarr, .lidarr, .readarr, .prowlarr]

/-- A key of the `statuses` record: one of the five *arr families, or one of
the two optional services. -/
inductive StatusKey where
  | arr (f : ArrFamily) : StatusKey
  | tautulli : StatusKey
  | overseerr : StatusKey
deriving DecidableEq, Repr

def allStatusKeys : List StatusKey :=
  familiesOrder.map StatusKey.arr ++ [.tautulli, .overseerr]

/-- One entry of the `statuses` record.  The success payload (version,
appName, server data, ...) is abstracted to a single string. -/
inductive StatusEntry where
  | notConfigured : StatusEntry
  | connected (info : String) : StatusEntry
  | errored (msg : String) : StatusEntry
deriving DecidableEq, Repr

/-- `try { ...getStatus()... } catch (error) { configured:true, connected:false, error }`
for a configured service; `{ configured: false }` otherwise. -/
def statusEntryOf (configured : Bool) (probe : Except String String) :
    StatusEntry :=
  if configured then
    match probe with
    | .ok info => .connected info
    | .error e => .errored e
  else .notConfigured

/-- The `arr_status` handler: the first loop visits the configured *arr
services in order and records a connected/errored entry for each (every
`await` sits inside that iteration's `try`); the second loop appends
`{ configured: false }` for each service without an entry; then the Tautulli
and Overseerr entries are written unconditionally (each probe inside its own
`try/catch`).  A client object exists exactly when its service is configured
(index.ts lines 67-96). -/
def arrStatus (configured : ArrFamily → Bool)
    (probe : ArrFamily → Except String String)
    (tautulliConfigured : Bool) (tautulliProbe : Except String String)
    (overseerrConfigured : Bool) (overseerrProbe : Except String String) :
    List (StatusKey × StatusEntry) :=
  ((familiesOrder.filter configured).map fun f =>
      (StatusKey.arr f, statusEntryOf true (probe f)))
    ++ ((familiesOrder.filter (fun f => !configured f)).map fun f =>
      (StatusKey.arr f, StatusEntry.notConfigured))
    ++ [(StatusKey.tautulli, statusEntryOf tautulliConfigured tautulliProbe),
        (StatusKey.overseerr, statusEntryOf overseerrConfigured overseerrProbe)]

/-! ## The `CallToolRequestSchema` dispatcher boundary (index.ts lines
1032-1036 and 2802-2811) -/

/-- The result returned to the transport: the serialized text content and the
`isError` flag. -/
structure CallResult where
  text : String
  isError : Bool
deriving DecidableEq, Repr

/-- The case labels of the dispatcher's `switch (name)`. -/
def knownTools : List String :=
  [ "arr_status", "arr_search_all"
  , "sonarr_get_quality_profiles", "radarr_get_quality_profiles"
  , "lidarr_get_quality_profiles", "readarr_get_quality_profiles"
  , "sonarr_get_root_folders", "radarr_get_root_folders"
  , "lidarr_get_root_folders", "readarr_get_root_folders"
  , "sonarr_get_tags", "radarr_get_tags", "lidarr_get_tags", "readarr_get_tags"
  , "sonarr_get_health", "radarr_get_health", "lidarr_get_health", "readarr_get_health"
  , "sonarr_get_download_clients", "radarr_get_download_clients"
  , "lidarr_get_download_clients", "readarr_get_download_clients"
  , "sonarr_get_naming", "radarr_get_naming", "lidarr_get_naming", "readarr_get_naming"
  , "sonarr_review_setup", "radarr_review_setup", "lidarr_review_setup", "readarr_review_setup"
  , "sonarr_get_series", "sonarr_search", "sonarr_get_queue", "sonarr_get_calendar"
  , "sonarr_get_episodes", "sonarr_search_missing", "sonarr_search_episode"
  , "sonarr_delete_series", "sonarr_delete_season", "sonarr_delete_episode_files"
  , "radarr_get_movies", "radarr_search", "radarr_get_queue", "radarr_get_calendar"
  , "radarr_search_movie", "radarr_delete_movie"
  , "lidarr_get_artists", "lidarr_get_albums", "lidarr_search", "lidarr_get_queue"
  , "lidarr_get_calendar", "lidarr_search_missing", "lidarr_search_album"
  , "readarr_get_authors", "readarr_get_books", "readarr_search", "readarr_get_queue"
  , "readarr_get_calendar", "readarr_search_missing", "readarr_search_book"
  , "prowlarr_get_indexers", "prowlarr_search", "prowlarr_test_indexers", "prowlarr_get_stats"
  , "tautulli_get_activity", "tautulli_get_history", "tautulli_get_libraries"
  , "tautulli_get_server_info", "tautulli_get_home_stats", "tautulli_get_users"
  , "tautulli_get_recently_added", "tautulli_server_status", "tautulli_terminate_session"
  , "overseerr_get_requests", "overseerr_get_request_count", "overseerr_approve_request"
  , "overseerr_decline_request", "overseerr_get_users", "overseerr_get_user_requests"
  , "overseerr_search", "overseerr_status"
  , "trash_list_profiles", "trash_get_profile", "trash_list_custom_formats"
  , "trash_get_quality_sizes", "trash_get_naming", "trash_compare_naming"
  , "trash_compare_profile" ]

/-- The `switch (name)` body: a known case runs its handler (which either
returns a payload or throws a message, e.g. `throw new Error("Sonarr not
configured")`); the `default` case throws `Unknown tool: ${name}`. -/
def handleSwitch (name : String) (behavior : String → Except String String) :
    Except String String :=
  if name ∈ knownTools then behavior name
  else .error ("Unknown tool: " ++ name)

/-- The outermost `try/catch` of the `CallToolRequestSchema` handler: a
thrown error is converted to `{ content: [{ text: "Error: " + message }],
isError: true }`, and a returned payload is passed through unflagged. -/
def callToolHandler (name : String) (behavior : String → Except String String) :
    CallResult :=
  match handleSwitch name behavior with
  | .ok payload => { text := payload, isError := false }
  | .error msg => { text := "Error: " ++ msg, isError := true }

/-! ## Sorting in `sonarr_get_series` (index.ts lines 1395-1443) and
`radarr_get_movies` (lines 1625-1674)

JavaScript `Array.prototype.sort` with a comparator `cmp` produces a stable
arrangement ordered so that `cmp a b ≤ 0` holds along the list; it is
modelled by `List.mergeSort` (stable) with the boolean order `cmp a b ≤ 0`.
`localeCompare` on the ISO date strings of the `added`/`dateAdded` fields is
modelled as lexicographic string comparison. -/

/-- A Sonarr series, restricted to the fields the sort reads:
`a.added` and `a.statistics?.sizeOnDisk` (a single `Option` covers both a
missing `statistics` object and a missing `sizeOnDisk` field). -/
structure Series where
  added : Option String
  sizeOnDisk : Option Nat
deriving DecidableEq, Repr

/-- A Radarr movie, restricted to the fields the sort reads: `dateAdded`,
`added`, `sizeOnDisk`. -/
structure Movie where
  dateAdded : Option String
  added : Option String
  sizeOnDisk : Option Nat
deriving DecidableEq, Repr

/-- The date key of the Radarr comparator: `a.dateAdded ?? a.added ?? ''`. -/
def movieDateKey (m : Movie) : String :=
  m.dateAdded.getD (m.added.getD "")

/-- The validated sort direction: `a.sortDir === 'asc' || a.sortDir === 'desc'
? a.sortDir : undefined`. -/
def validSortDir (sortDirArg : Option String) : Option String :=
  if sortDirArg = some "asc" ∨ sortDirArg = some "desc" then sortDirArg
  else none

/-- The sorting stage of `sonarr_get_series`, parameterized by the raw
`sortBy`/`sortDir` arguments and the series list fetched from Sonarr.
`sortBy` is validated against `'dateAdded' | 'sizeOnDisk'`; the `dateAdded`
branch defaults the direction to `'asc'` and sorts by
`(a.added ?? '').localeCompare(b.added ?? '')` (negated for `'desc'`); the
`sizeOnDisk` branch defaults to `'desc'` and sorts by
`(b.statistics?.sizeOnDisk ?? 0) - (a.statistics?.sizeOnDisk ?? 0)`
(negated for `'asc'`). -/
def sonarrSortSeries (sortByArg : Option String) (sortDirArg : Option String)
    (series : List Series) : List Series :=
  let sortBy := if sortByArg = some "dateAdded" ∨ sortByArg = some "sizeOnDisk"
    then sortByArg else none
  let sortDir := validSortDir sortDirArg
  if sortBy = some "dateAdded" then
    let dir := sortDir.getD "asc"
    series.mergeSort fun a b =>
      if dir = "desc" then decide (b.added.getD "" ≤ a.added.getD "")
      else decide (a.added.getD "" ≤ b.added.getD "")
  else if sortBy = some "sizeOnDisk" then
    let dir := sortDir.getD "desc"
    series.mergeSort fun a b =>
      if dir = "asc" then decide (a.sizeOnDisk.getD 0 ≤ b.sizeOnDisk.getD 0)
      else decide (b.sizeOnDisk.getD 0 ≤ a.sizeOnDisk.getD 0)
  else series

/-- The sorting stage of `radarr_get_movies`: `sortBy` accepts `'dateAdded'`
or `'added'` (both meaning date) and `'sizeOnDisk'`; the date branch defaults
to `'asc'` and compares `a.dateAdded ?? a.added ?? ''`; the size branch
defaults to `'desc'` and compares `b.sizeOnDisk ?? 0` against
`a.sizeOnDisk ?? 0`. -/
def radarrSortMovies (sortByArg : Option String) (sortDirArg : Option String)
    (movies : List Movie) : List Movie :=
  let sortBy := if sortByArg = some "dateAdded" ∨ sortByArg = some "added"
    then some "dateAdded"
    else if sortByArg = some "sizeOnDisk" then some "sizeOnDisk" else none
  let sortDir := validSortDir sortDirArg
  if sortBy = some "dateAdded" then
    let dir := sortDir.getD "asc"
    movies.mergeSort fun a b =>
      if dir = "desc" then decide (movieDateKey b ≤ movieDateKey a)
      else decide (movieDateKey a ≤ movieDateKey b)
  else if sortBy = some "sizeOnDisk" then
    let dir := sortDir.getD "desc"
    movies.mergeSort fun a b =>
      if dir = "asc" then decide (a.sizeOnDisk.getD 0 ≤ b.sizeOnDisk.getD 0)
      else decide (b.sizeOnDisk.getD 0 ≤ a.sizeOnDisk.getD 0)
  else movies

/-! ## Helper lemmas -/

theorem returnLimit_le_100 (lengthArg : JsVal) : returnLimit lengthArg ≤ 100 := by
  cases lengthArg with
  | num n =>
      by_cases h : 0 < n
      · simp [returnLimit, h]
      · simp [returnLimit, h]
  | missing => simp [returnLimit]
  | other => simp [returnLimit]

theorem returnLimit_num_pos {n : Int} (h : 0 < n) :
    returnLimit (.num n) = min n.toNat 100 := by
  simp [returnLimit, h]

theorem tautulliGetHistoryTitled_ok (title : String) (lengthArg : JsVal)
    (libraryProbe : Except String LibrarySearchData) (payload : HistoryPayload) :
    tautulliGetHistoryTitled title lengthArg libraryProbe (.ok payload) =
      .ok (buildWatchHistoryResult title lengthArg
        (match libraryProbe with | .ok d => some d | .error _ => none) payload) := rfl

theorem buildWatchHistoryResult_history (title : String) (lengthArg : JsVal)
    (libData : Option LibrarySearchData) (payload : HistoryPayload) :
    (buildWatchHistoryResult title lengthArg libData payload).history =
      ((extractRows payload).take (returnLimit lengthArg)).map mapHistoryRow := rfl

theorem totalFromList_pos_iff (list : List (String × JsListVal)) :
    0 < totalFromList list ↔ ∃ p ∈ list, 0 < catLen p.2 := by
  rw [totalFromList, Nat.pos_iff_ne_zero, Ne, List.sum_eq_zero_iff]
  push_neg
  constructor
  · rintro ⟨x, hx, hxne⟩
    rcases List.mem_map.mp hx with ⟨p, hp, rfl⟩
    exact ⟨p, hp, Nat.pos_iff_ne_zero.mpr hxne⟩
  · rintro ⟨p, hp, hpos⟩
    exact ⟨catLen p.2, List.mem_map.mpr ⟨p, hp, rfl⟩, Nat.pos_iff_ne_zero.mp hpos⟩

/-! ## Claims about the watch-history flow -/

/-- C1: For the watch-history tool invoked with a title filter, `returned`
equals the length of the emitted `history` sequence and is at most
min(requested length, 100); a requested length that is missing, non-numeric,
or ≤ 0 coerces the cap to the default of 100, and the call succeeds rather
than being rejected. -/
theorem watch_history_returned_cap (title : String) (lengthArg : JsVal)
    (libraryProbe : Except String LibrarySearchData) (payload : HistoryPayload)
    (res : WatchHistoryResult)
    (h : tautulliGetHistoryTitled title lengthArg libraryProbe (.ok payload) = .ok res) :
    res.returned = res.history.length ∧
    res.returned ≤ 100 ∧
    (∀ n : Int, lengthArg = .num n → 0 < n → res.returned ≤ min n.toNat 100) ∧
    ((lengthArg = .missing ∨ lengthArg = .other ∨
        ∃ n : Int, n ≤ 0 ∧ lengthArg = .num n) →
      returnLimit lengthArg = 100) := by
  rw [tautulliGetHistoryTitled_ok] at h
  obtain rfl : res = _ := (Except.ok.injEq _ _).mp h.symm
  refine ⟨rfl, ?_, ?_, ?_⟩
  · calc (buildWatchHistoryResult title lengthArg _ payload).returned
        = min (returnLimit lengthArg) (extractRows payload).length := by
          simp [buildWatchHistoryResult]
      _ ≤ returnLimit lengthArg := Nat.min_le_left _ _
      _ ≤ 100 := returnLimit_le_100 lengthArg
  · rintro n rfl hn
    calc (buildWatchHistoryResult title (.num n) _ payload).returned
        = min (returnLimit (.num n)) (extractRows payload).length := by
          simp [buildWatchHistoryResult]
      _ ≤ returnLimit (.num n) := Nat.min_le_left _ _
      _ = min n.toNat 100 := returnLimit_num_pos hn
  · rintro (rfl | rfl | ⟨n, hn, rfl⟩)
    · rfl
    · rfl
    · have : ¬ (0 : Int) < n := not_lt.mpr hn
      simp [returnLimit, this]

theorem watch_history_returned_cap_witness :
    ∃ res : WatchHistoryResult,
      tautulliGetHistoryTitled "Foo" (.num 250) (.error "down")
          (.ok (.withData [])) = .ok res ∧
      res.returned = res.history.length ∧ res.returned ≤ 100 := by
  refine ⟨_, rfl, ?_, ?_⟩
  · exact (watch_history_returned_cap "Foo" (.num 250) (.error "down")
      (.withData []) _ rfl).1
  · exact (watch_history_returned_cap "Foo" (.num 250) (.error "down")
      (.withData []) _ rfl).2.1

/-- C2: In the dual-probe flow, a failing library-presence probe does not fail
the tool invocation — `existsInLibrary` is reported `false` and the history
result is still produced — while a failing history probe propagates and fails
the whole invocation. -/
theorem watch_history_probe_failure_isolation (title : String) (lengthArg : JsVal)
    (payload : HistoryPayload) :
    (∀ e : String, ∃ res : WatchHistoryResult,
      tautulliGetHistoryTitled title lengthArg (.error e) (.ok payload) = .ok res ∧
      res.existsInLibrary = false ∧
      res.history = ((extractRows payload).take (returnLimit lengthArg)).map mapHistoryRow) ∧
    (∀ (libraryProbe : Except String LibrarySearchData) (e : String),
      tautulliGetHistoryTitled title lengthArg libraryProbe (.error e) = .error e) := by
  constructor
  · intro e
    exact ⟨_, rfl, rfl, rfl⟩
  · intro libraryProbe e
    rfl

/-- C3: Each emitted history record is `{who, when, title}` built by the
display-name fallback chain, the epoch-seconds-to-ISO-8601 conversion with a
`"-"` sentinel, and the title fallback chain; the emitted sequence is exactly
the first min(requestedLength, 100) rows of the history search result in
order. -/
theorem watch_history_row_mapping (title : String) (n : Int) (hn : 0 < n)
    (libraryProbe : Except String LibrarySearchData) (payload : HistoryPayload)
    (res : WatchHistoryResult)
    (h : tautulliGetHistoryTitled title (.num n) libraryProbe (.ok payload) = .ok res) :
    res.history = ((extractRows payload).take (min n.toNat 100)).map mapHistoryRow ∧
    (∀ r : HistoryRow,
      (mapHistoryRow r).who = (match r.friendly_name with
        | some s => s
        | none => match r.user with | some s => s | none => "-") ∧
      (mapHistoryRow r).whenAt = (match r.date with
        | some d => epochToIso d
        | none => "-") ∧
      (mapHistoryRow r).title = (match r.full_title with
        | some s => s
        | none => match r.title with
          | some s => s
          | none => match r.grandparent_title with | some s => s | none => "-")) := by
  rw [tautulliGetHistoryTitled_ok] at h
  obtain rfl : res = _ := (Except.ok.injEq _ _).mp h.symm
  constructor
  · rw [buildWatchHistoryResult_history, returnLimit_num_pos hn]
  · intro r
    refine ⟨?_, ?_, ?_⟩
    · cases hf : r.friendly_name with
      | some s => simp [mapHistoryRow, hf]
      | none =>
          cases hu : r.user with
          | some s => simp [mapHistoryRow, hf, hu]
          | none => simp [mapHistoryRow, hf, hu]
    · cases hd : r.date with
      | some d => simp [mapHistoryRow, hd]
      | none => simp [mapHistoryRow, hd]
    · cases hf : r.full_title with
      | some s => simp [mapHistoryRow, hf]
      | none =>
          cases ht : r.title with
          | some s => simp [mapHistoryRow, hf, ht]
          | none =>
              cases hg : r.grandparent_title with
              | some s => simp [mapHistoryRow, hf, ht, hg]
              | none => simp [mapHistoryRow, hf, ht, hg]

theorem watch_history_row_mapping_witness :
    (0 : Int) < 2 ∧
    ∃ res : WatchHistoryResult,
      tautulliGetHistoryTitled "Foo" (.num 2) (.error "down")
          (.ok (.withData
            [ { friendly_name := some "Alice", user := some "alice"
              , date := some 1700000000, full_title := none
              , title := some "Foo", grandparent_title := none }
            , { friendly_name := none, user := none, date := none
              , full_title := none, title := none, grandparent_title := none }
            , { friendly_name := none, user := some "bob", date := some 0
              , full_title := some "Foo E2", title := some "Foo"
              , grandparent_title := some "Foo" } ])) = .ok res ∧
      res.history =
        [ { who := "Alice", whenAt := "2023-11-14T22:13:20.000Z", title := "Foo" }
        , { who := "-", whenAt := "-", title := "-" } ] := by
  refine ⟨by decide, _, rfl, ?_⟩
  rw [(watch_history_row_mapping "Foo" 2 (by decide) (Except.error "down")
      (HistoryPayload.withData
        [ { friendly_name := some "Alice", user := some "alice"
          , date := some 1700000000, full_title := none
          , title := some "Foo", grandparent_title := none }
        , { friendly_name := none, user := none, date := none
          , full_title := none, title := none, grandparent_title := none }
        , { friendly_name := none, user := some "bob", date := some 0
          , full_title := some "Foo E2", title := some "Foo"
          , grandparent_title := some "Foo" } ]) _ rfl).1]
  decide

/-- C4: `existsInLibrary` is true iff the library search's result count is
positive or some category of its grouped result list is non-empty; and the
zero-matches / zero-rows scenario yields
`{existsInLibrary: false, watchedCount: 0, history: []}` with the call
succeeding. -/
theorem watch_history_presence_correlation (title : String) (lengthArg : JsVal)
    (d : LibrarySearchData) (payload : HistoryPayload) (res : WatchHistoryResult)
    (h : tautulliGetHistoryTitled title lengthArg (.ok d) (.ok payload) = .ok res) :
    (res.existsInLibrary = true ↔
      0 < d.results_count.getD 0 ∨ ∃ p ∈ d.results_list.getD [], 0 < catLen p.2) ∧
    (∃ res0 : WatchHistoryResult,
      tautulliGetHistoryTitled "Nonexistent Show XYZ" lengthArg
          (.ok { results_count := some 0, results_list := some [] })
          (.ok (.withData [])) = .ok res0 ∧
      res0.existsInLibrary = false ∧ res0.watchedCount = 0 ∧ res0.history = []) := by
  constructor
  · rw [tautulliGetHistoryTitled_ok] at h
    obtain rfl : res = _ := (Except.ok.injEq _ _).mp h.symm
    show existsInLibraryOf (some d) = true ↔ _
    simp only [existsInLibraryOf, Bool.or_eq_true, decide_eq_true_eq]
    rw [totalFromList_pos_iff]
  · refine ⟨_, rfl, rfl, rfl, ?_⟩
    simp [buildWatchHistoryResult, extractRows]

theorem watch_history_presence_correlation_witness :
    ∃ res : WatchHistoryResult,
      tautulliGetHistoryTitled "Foo" .missing
          (.ok { results_count := some 0
               , results_list := some [("movie", .arr 2)] })
          (.ok (.withData [])) = .ok res ∧
      res.existsInLibrary = true := by
  refine ⟨_, rfl, ?_⟩
  exact (watch_history_presence_correlation "Foo" .missing
      { results_count := some 0, results_list := some [("movie", .arr 2)] }
      (.withData []) _ rfl).1.mpr
    (Or.inr ⟨("movie", .arr 2), by decide, by decide⟩)

/-! ## Claims about `arr_search_all` -/

theorem lookup_map_self {α β : Type} [DecidableEq α] (f : α → β) (l : List α)
    (s : α) (hs : s ∈ l) : (l.map fun t => (t, f t)).lookup s = some (f s) := by
  induction l with
  | nil => cases hs
  | cons a l ih =>
      rcases List.mem_cons.mp hs with rfl | hmem
      · simp [List.lookup]
      · by_cases he : s = a
        · subst he; simp [List.lookup]
        · have hb : (s == a) = false := beq_eq_false_iff_ne.mpr he
          simp only [List.map_cons, List.lookup_cons, hb]
          exact ih hmem

theorem lookup_map_none {α β : Type} [DecidableEq α] (f : α → β) (l : List α)
    (s : α) (hs : s ∉ l) : (l.map fun t => (t, f t)).lookup s = none := by
  induction l with
  | nil => rfl
  | cons a l ih =>
      have hne : s ≠ a := fun h => hs (h ▸ List.mem_cons_self a l)
      have hb : (s == a) = false := beq_eq_false_iff_ne.mpr hne
      simp only [List.map_cons, List.lookup_cons, hb]
      exact ih fun h => hs (List.mem_cons_of_mem a h)

theorem mem_searchAllOrder (s : ArrService) : s ∈ searchAllOrder := by
  cases s <;> decide

/-- C5: Each configured backend contributes exactly one entry to the
`arr_search_all` result — a success payload or its own error message — in the
fixed declared service order; one backend's failure never removes or blocks
the entries of the other backends. -/
theorem arr_search_all_isolation (configured : ArrService → Bool)
    (search : ArrService → Except String (List String)) :
    ((arrSearchAll configured search).map Prod.fst = searchAllOrder.filter configured) ∧
    (∀ s, configured s = true →
      (arrSearchAll configured search).lookup s = some (searchEntryOf (search s))) ∧
    (∀ s, configured s = false →
      (arrSearchAll configured search).lookup s = none) ∧
    (∀ (search2 : ArrService → Except String (List String)) (s : ArrService),
      (∀ t, t ≠ s → search t = search2 t) →
      ∀ t, t ≠ s →
        (arrSearchAll configured search).lookup t =
          (arrSearchAll configured search2).lookup t) := by
  have hmem : ∀ s, configured s = true → s ∈ searchAllOrder.filter configured :=
    fun s hc => List.mem_filter.mpr ⟨mem_searchAllOrder s, hc⟩
  have hlookup : ∀ (sf : ArrService → Except String (List String)) s,
      configured s = true →
      (arrSearchAll configured sf).lookup s = some (searchEntryOf (sf s)) :=
    fun sf s hc => lookup_map_self (fun t => searchEntryOf (sf t)) _ s (hmem s hc)
  have hnone : ∀ (sf : ArrService → Except String (List String)) s,
      configured s = false → (arrSearchAll configured sf).lookup s = none := by
    intro sf s hc
    refine lookup_map_none (fun t => searchEntryOf (sf t)) _ s fun h => ?_
    have := (List.mem_filter.mp h).2
    rw [hc] at this
    cases this
  refine ⟨?_, hlookup search, hnone search, ?_⟩
  · rw [arrSearchAll, List.map_map]
    have hcomp : (Prod.fst ∘ fun s => (s, searchEntryOf (search s))) = id :=
      funext fun x => rfl
    rw [hcomp, List.map_id]
  · intro search2 s hagree t hts
    cases hc : configured t with
    | true =>
        rw [hlookup search t hc, hlookup search2 t hc, hagree t hts]
    | false =>
        rw [hnone search t hc, hnone search2 t hc]

theorem arr_search_all_isolation_witness :
    (arrSearchAll (fun s => !(s == ArrService.lidarr))
        (fun s => match s with
          | ArrService.radarr => Except.error "boom"
          | _ => Except.ok ["a", "b", "c", "d", "e", "f"])).lookup ArrService.radarr
      = some (SearchEntry.failure "boom") ∧
    (arrSearchAll (fun s => !(s == ArrService.lidarr))
        (fun s => match s with
          | ArrService.radarr => Except.error "boom"
          | _ => Except.ok ["a", "b", "c", "d", "e", "f"])).lookup ArrService.sonarr
      = some (SearchEntry.success 6 ["a", "b", "c", "d", "e"]) ∧
    (arrSearchAll (fun s => !(s == ArrService.lidarr))
        (fun s => match s with
          | ArrService.radarr => Except.error "boom"
          | _ => Except.ok ["a", "b", "c", "d", "e", "f"])).lookup ArrService.lidarr
      = none := by
  have h := arr_search_all_isolation (fun s => !(s == ArrService.lidarr))
    (fun s => match s with
      | ArrService.radarr => Except.error "boom"
      | _ => Except.ok ["a", "b", "c", "d", "e", "f"])
  refine ⟨?_, ?_, ?_⟩
  · rw [h.2.1 ArrService.radarr (by decide)]
    rfl
  · rw [h.2.1 ArrService.sonarr (by decide)]
    decide
  · exact h.2.2.1 ArrService.lidarr rfl

/-! ## Claims about `arr_status` -/

theorem mem_familiesOrder (f : ArrFamily) : f ∈ familiesOrder := by
  cases f <;> decide

/-- C6: For every configuration subset and every combination of probe
outcomes, `arr_status` produces exactly one entry per known backend family
plus one per optional service (seven entries); an unconfigured service yields
`{configured: false}`, a configured but unreachable one yields
`{configured: true, connected: false, error: message}`, and the handler is a
total function of the probe outcomes (it never throws because of an
unreachable backend). -/
theorem arr_status_entries (configured : ArrFamily → Bool)
    (probe : ArrFamily → Except String String)
    (tc : Bool) (tprobe : Except String String)
    (oc : Bool) (oprobe : Except String String) :
    (arrStatus configured probe tc tprobe oc oprobe).length = 7 ∧
    ((arrStatus configured probe tc tprobe oc oprobe).map Prod.fst).Perm allStatusKeys ∧
    (∀ f, configured f = false →
      (StatusKey.arr f, StatusEntry.notConfigured) ∈
        arrStatus configured probe tc tprobe oc oprobe) ∧
    (∀ f e, configured f = true → probe f = .error e →
      (StatusKey.arr f, StatusEntry.errored e) ∈
        arrStatus configured probe tc tprobe oc oprobe) ∧
    (tc = false → (StatusKey.tautulli, StatusEntry.notConfigured) ∈
        arrStatus configured probe tc tprobe oc oprobe) ∧
    (∀ e, tc = true → tprobe = .error e →
      (StatusKey.tautulli, StatusEntry.errored e) ∈
        arrStatus configured probe tc tprobe oc oprobe) ∧
    (oc = false → (StatusKey.overseerr, StatusEntry.notConfigured) ∈
        arrStatus configured probe tc tprobe oc oprobe) ∧
    (∀ e, oc = true → oprobe = .error e →
      (StatusKey.overseerr, StatusEntry.errored e) ∈
        arrStatus configured probe tc tprobe oc oprobe) := by
  have hsplit := List.filter_append_perm configured familiesOrder
  have hperm : ((arrStatus configured probe tc tprobe oc oprobe).map Prod.fst).Perm
      allStatusKeys := by
    rw [arrStatus, allStatusKeys]
    simp only [List.map_append, List.map_map]
    have h1 : (List.map (Prod.fst ∘ fun f => (StatusKey.arr f, statusEntryOf true (probe f)))
        (familiesOrder.filter configured)) =
        (familiesOrder.filter configured).map StatusKey.arr := rfl
    have h2 : (List.map (Prod.fst ∘ fun f => (StatusKey.arr f, StatusEntry.notConfigured))
        (familiesOrder.filter fun f => !configured f)) =
        (familiesOrder.filter fun f => !configured f).map StatusKey.arr := rfl
    rw [h1, h2, ← List.map_append]
    have : ((familiesOrder.filter configured ++
        familiesOrder.filter fun f => !configured f).map StatusKey.arr).Perm
        (familiesOrder.map StatusKey.arr) := hsplit.map StatusKey.arr
    simpa using this.append_right
      [(StatusKey.tautulli, statusEntryOf tc tprobe).1,
       (StatusKey.overseerr, statusEntryOf oc oprobe).1]
  refine ⟨?_, hperm, ?_, ?_, ?_, ?_, ?_, ?_⟩
  · have := hperm.length_eq
    simpa using this
  · intro f hf
    apply List.mem_append.mpr
    left
    apply List.mem_append.mpr
    right
    exact List.mem_map.mpr ⟨f,
      List.mem_filter.mpr ⟨mem_familiesOrder f, by rw [hf]; rfl⟩, rfl⟩
  · intro f e hf he
    apply List.mem_append.mpr
    left
    apply List.mem_append.mpr
    left
    refine List.mem_map.mpr ⟨f, List.mem_filter.mpr ⟨mem_familiesOrder f, hf⟩, ?_⟩
    simp [statusEntryOf, he]
  · intro ht
    apply List.mem_append.mpr
    right
    subst ht
    exact List.mem_cons_self _ _
  · intro e ht he
    apply List.mem_append.mpr
    right
    subst ht
    rw [he]
    exact List.mem_cons_self _ _
  · intro ho
    apply List.mem_append.mpr
    right
    subst ho
    exact List.mem_cons_of_mem _ (List.mem_cons_self _ _)
  · intro e ho he
    apply List.mem_append.mpr
    right
    subst ho
    rw [he]
    exact List.mem_cons_of_mem _ (List.mem_cons_self _ _)

theorem arr_status_entries_witness :
    (arrStatus (fun f => f == ArrFamily.sonarr)
        (fun _ => Except.error "connect ECONNREFUSED") true (Except.error "timeout")
        false (Except.ok "v1")).length = 7 ∧
    (StatusKey.arr ArrFamily.radarr, StatusEntry.notConfigured) ∈
      arrStatus (fun f => f == ArrFamily.sonarr)
        (fun _ => Except.error "connect ECONNREFUSED") true (Except.error "timeout")
        false (Except.ok "v1") ∧
    (StatusKey.arr ArrFamily.sonarr, StatusEntry.errored "connect ECONNREFUSED") ∈
      arrStatus (fun f => f == ArrFamily.sonarr)
        (fun _ => Except.error "connect ECONNREFUSED") true (Except.error "timeout")
        false (Except.ok "v1") ∧
    (StatusKey.tautulli, StatusEntry.errored "timeout") ∈
      arrStatus (fun f => f == ArrFamily.sonarr)
        (fun _ => Except.error "connect ECONNREFUSED") true (Except.error "timeout")
        false (Except.ok "v1") ∧
    (StatusKey.overseerr, StatusEntry.notConfigured) ∈
      arrStatus (fun f => f == ArrFamily.sonarr)
        (fun _ => Except.error "connect ECONNREFUSED") true (Except.error "timeout")
        false (Except.ok "v1") := by
  have h := arr_status_entries (fun f => f == ArrFamily.sonarr)
    (fun _ => Except.error "connect ECONNREFUSED") true (Except.error "timeout")
    false (Except.ok "v1")
  exact ⟨h.1,
    h.2.2.1 ArrFamily.radarr (by decide),
    h.2.2.2.1 ArrFamily.sonarr "connect ECONNREFUSED" (by decide) rfl,
    h.2.2.2.2.2.1 "timeout" rfl rfl,
    h.2.2.2.2.2.2.1 rfl⟩

/-! ## Claims about the dispatcher boundary -/

/-- C7: Every tool invocation terminates in either a success payload or a
structured, flagged error payload carrying the error's message text — no
error raised by a handler (or by the unknown-tool default case) escapes the
dispatcher — and invoking a name outside the declared tool set yields a
flagged error result naming the unknown tool. -/
theorem dispatcher_error_boundary (name : String)
    (behavior : String → Except String String) :
    (∀ payload, handleSwitch name behavior = .ok payload →
      callToolHandler name behavior = { text := payload, isError := false }) ∧
    (∀ msg, handleSwitch name behavior = .error msg →
      callToolHandler name behavior = { text := "Error: " ++ msg, isError := true }) ∧
    (name ∉ knownTools →
      callToolHandler name behavior =
        { text := "Error: " ++ ("Unknown tool: " ++ name), isError := true }) ∧
    ((callToolHandler name behavior).isError = false ∧
        handleSwitch name behavior = .ok (callToolHandler name behavior).text ∨
      (callToolHandler name behavior).isError = true ∧
        ∃ msg, handleSwitch name behavior = .error msg ∧
          (callToolHandler name behavior).text = "Error: " ++ msg) := by
  refine ⟨?_, ?_, ?_, ?_⟩
  · intro payload h
    rw [callToolHandler, h]
  · intro msg h
    rw [callToolHandler, h]
  · intro hmem
    rw [callToolHandler, handleSwitch, if_neg hmem]
  · cases h : handleSwitch name behavior with
    | ok payload =>
        left
        rw [callToolHandler, h]
        exact ⟨rfl, rfl⟩
    | error msg =>
        right
        rw [callToolHandler, h]
        exact ⟨rfl, msg, rfl, rfl⟩

theorem dispatcher_error_boundary_witness :
    ("frobnicate" ∉ knownTools) ∧
    callToolHandler "frobnicate" (fun _ => Except.ok "{}") =
      { text := "Error: " ++ ("Unknown tool: " ++ "frobnicate"), isError := true } ∧
    callToolHandler "sonarr_get_series" (fun _ => Except.error "Sonarr not configured") =
      { text := "Error: " ++ "Sonarr not configured", isError := true } ∧
    callToolHandler "arr_status" (fun _ => Except.ok "{}") =
      { text := "{}", isError := false } := by
  refine ⟨by decide, ?_, ?_, ?_⟩
  · exact (dispatcher_error_boundary "frobnicate" (fun _ => Except.ok "{}")).2.2.1
      (by decide)
  · exact (dispatcher_error_boundary "sonarr_get_series"
      (fun _ => Except.error "Sonarr not configured")).2.1 "Sonarr not configured"
      rfl
  · exact (dispatcher_error_boundary "arr_status" (fun _ => Except.ok "{}")).1 "{}"
      rfl

/-! ## Claims about the library-listing sorts -/

theorem pairwise_mergeSort_of {α : Type} (r : α → α → Prop) [DecidableRel r]
    (htrans : ∀ a b c, r a b → r b c → r a c)
    (htotal : ∀ a b, r a b ∨ r b a) (l : List α) :
    (l.mergeSort fun a b => decide (r a b)).Pairwise r := by
  have h := @List.sorted_mergeSort α (fun a b => decide (r a b))
    (fun a b c hab hbc =>
      decide_eq_true (htrans a b c (of_decide_eq_true hab) (of_decide_eq_true hbc)))
    (fun a b => by
      rw [Bool.or_eq_true, decide_eq_true_eq, decide_eq_true_eq]
      exact htotal a b) l
  exact h.imp fun hab => of_decide_eq_true hab

/-- C8: For `sonarr_get_series` and `radarr_get_movies`, `sortBy = 'sizeOnDisk'`
with no direction sorts descending by size on disk, `sortBy = 'dateAdded'`
with no direction sorts ascending by date added, an explicit `'asc'`/`'desc'`
overrides those defaults, and every sort emits a permutation of the input
list. -/
theorem library_sort_defaults (series : List Series) (movies : List Movie) :
    ((sonarrSortSeries (some "sizeOnDisk") none series).Pairwise
      fun a b => b.sizeOnDisk.getD 0 ≤ a.sizeOnDisk.getD 0) ∧
    ((sonarrSortSeries (some "dateAdded") none series).Pairwise
      fun a b => a.added.getD "" ≤ b.added.getD "") ∧
    ((sonarrSortSeries (some "sizeOnDisk") (some "asc") series).Pairwise
      fun a b => a.sizeOnDisk.getD 0 ≤ b.sizeOnDisk.getD 0) ∧
    ((sonarrSortSeries (some "dateAdded") (some "desc") series).Pairwise
      fun a b => b.added.getD "" ≤ a.added.getD "") ∧
    (∀ sortByArg sortDirArg,
      (sonarrSortSeries sortByArg sortDirArg series).Perm series) ∧
    ((radarrSortMovies (some "sizeOnDisk") none movies).Pairwise
      fun a b => b.sizeOnDisk.getD 0 ≤ a.sizeOnDisk.getD 0) ∧
    ((radarrSortMovies (some "dateAdded") none movies).Pairwise
      fun a b => movieDateKey a ≤ movieDateKey b) ∧
    ((radarrSortMovies (some "sizeOnDisk") (some "asc") movies).Pairwise
      fun a b => a.sizeOnDisk.getD 0 ≤ b.sizeOnDisk.getD 0) ∧
    ((radarrSortMovies (some "dateAdded") (some "desc") movies).Pairwise
      fun a b => movieDateKey b ≤ movieDateKey a) ∧
    (∀ sortByArg sortDirArg,
      (radarrSortMovies sortByArg sortDirArg movies).Perm movies) := by
  refine ⟨?_, ?_, ?_, ?_, ?_, ?_, ?_, ?_, ?_, ?_⟩
  · exact pairwise_mergeSort_of (fun a b => b.sizeOnDisk.getD 0 ≤ a.sizeOnDisk.getD 0)
      (fun a b c hab hbc => le_trans hbc hab)
      (fun a b => (le_total (b.sizeOnDisk.getD 0) (a.sizeOnDisk.getD 0))) series
  · exact pairwise_mergeSort_of (fun a b => a.added.getD "" ≤ b.added.getD "")
      (fun a b c hab hbc => le_trans hab hbc)
      (fun a b => le_total _ _) series
  · exact pairwise_mergeSort_of (fun a b => a.sizeOnDisk.getD 0 ≤ b.sizeOnDisk.getD 0)
      (fun a b c hab hbc => le_trans hab hbc)
      (fun a b => le_total _ _) series
  · exact pairwise_mergeSort_of (fun a b => b.added.getD "" ≤ a.added.getD "")
      (fun a b c hab hbc => le_trans hbc hab)
      (fun a b => le_total _ _) series
  · intro sortByArg sortDirArg
    simp only [sonarrSortSeries]
    split_ifs <;> first
      | exact List.mergeSort_perm _ _
      | exact List.Perm.refl _
  · exact pairwise_mergeSort_of (fun a b => b.sizeOnDisk.getD 0 ≤ a.sizeOnDisk.getD 0)
      (fun a b c hab hbc => le_trans hbc hab)
      (fun a b => le_total _ _) movies
  · exact pairwise_mergeSort_of (fun a b => movieDateKey a ≤ movieDateKey b)
      (fun a b c hab hbc => le_trans hab hbc)
      (fun a b => le_total _ _) movies
  · exact pairwise_mergeSort_of (fun a b => a.sizeOnDisk.getD 0 ≤ b.sizeOnDisk.getD 0)
      (fun a b c hab hbc => le_trans hab hbc)
      (fun a b => le_total _ _) movies
  · exact pairwise_mergeSort_of (fun a b => movieDateKey b ≤ movieDateKey a)
      (fun a b c hab hbc => le_trans hbc hab)
      (fun a b => le_total _ _) movies
  · intro sortByArg sortDirArg
    simp only [radarrSortMovies]
    split_ifs <;> first
      | exact List.mergeSort_perm _ _
      | exact List.Perm.refl _

/-! ## Concrete evaluations cross-checking the embedding -/

example : epochToIso 0 = "1970-01-01T00:00:00.000Z" := by decide
example : epochToIso 1700000000 = "2023-11-14T22:13:20.000Z" := by decide
example : epochToIso (-1) = "1969-12-31T23:59:59.000Z" := by decide

end McpArr
